import Mathlib

/-!
# QuestionAI backend (`src/backend/server.js`): extraction-and-fallback engine

A shallow embedding of the parts of `server.js` that turn the generative
service's reply into quiz-question records: the payload locator (regular
expressions), the lenient parser, the record normalisers of
`/api/generate-questions` and `/api/similar`, the fallback synthesisers
`generateDefaultQuestions`, `generateDefaultSimilarQuestions` and
`generateDefaultOptions`, and the section extractor `extractSection`.

Conventions of the embedding.

* JavaScript values are the type `JSVal`; objects keep their fields in
  insertion order.  Numbers are represented by integers: the code modelled
  here only builds ids (`idx + 1`, `Date.now() + idx`) and tests numbers for
  being zero.
* Strings are Lean strings, that is well-formed Unicode text.  The property
  `length` counts UTF-16 code units (`utf16Length`): a character outside the
  Basic Multilingual Plane counts twice.  The patterns of `server.js` match
  such a character as its two code units, which for these patterns is the same
  as matching the character.
* The counts `singleCount`, `multiCount`, `blankCount`, `count` are natural
  numbers: the numbers of JavaScript that are non-negative integers.  The code
  only compares their sums with indices and caps below 21, which the rounding of
  `+` above 2^53 cannot change.  `parseInt` prints its argument before it reads
  it, which matters from 10^21 on (see `parseInt`).
* A thrown exception is `none` in an `Option`; `console.log` calls are dropped
  except where evaluating their argument can throw.
* `JSON.parse` is a built-in, not code of the repository: it is a parameter
  `parse : String → Option JSVal` (`none` when it throws).  So are the first
  digit that `Number.prototype.toString` prints for a number from 10^21 on
  (`leadingDigit`), the constructor `new RegExp(source, 'i')` for a source that
  holds a caller's section name (`regExp`), and the case folding Canonicalize of
  the `i` flag (`canonicalize`).
-/

namespace QuestionAI

/-! ## JavaScript values -/

/-- The number of UTF-16 code units of a character. -/
def utf16Size (c : Char) : Nat := if c.toNat < 65536 then 1 else 2

/-- The property `length` of a string: its number of UTF-16 code units. -/
def utf16Length : List Char → Nat
  | [] => 0
  | c :: cs => utf16Size c + utf16Length cs

/-- JavaScript values as they flow through the engine. -/
inductive JSVal where
  | undefined
  | null
  | bool (b : Bool)
  | num (n : Int)
  | str (s : String)
  | arr (xs : List JSVal)
  | obj (fields : List (String × JSVal))

namespace JSVal

instance : Inhabited JSVal := ⟨JSVal.undefined⟩

/-- ToBoolean: what `||`, `!` and `?:` test. -/
def truthy : JSVal → Bool
  | undefined => false
  | null => false
  | bool b => b
  | num n => n != 0
  | str s => s != ""
  | arr _ => true
  | obj _ => true

/-- The operator `a || b`. -/
def or (a b : JSVal) : JSVal := if a.truthy then a else b

/-- Lookup of an own field of an object literal or parsed object. -/
def lookup (k : String) : List (String × JSVal) → JSVal
  | [] => undefined
  | (k', v) :: rest => if k' = k then v else lookup k rest

/-- Property read `v.k` for the property names the engine uses (`type`, `stem`,
`options`, `answer`, `knowledgePoints`, `difficulty`, `explanation`, `source`,
`length`).  Reading a property of `null` or `undefined` throws a TypeError
(`none`); strings and arrays have `length`; other primitives have none of
these properties. -/
def get (v : JSVal) (k : String) : Option JSVal :=
  match v with
  | undefined => none
  | null => none
  | bool _ => some undefined
  | num _ => some undefined
  | str s => some (if k = "length" then num (utf16Length s.data) else undefined)
  | arr xs => some (if k = "length" then num xs.length else undefined)
  | obj fs => some (lookup k fs)

/-- The test `Array.isArray(v)`. -/
def isArray : JSVal → Bool
  | arr _ => true
  | _ => false

/-- The test `v === s` against a string literal. -/
def eqStr (v : JSVal) (s : String) : Bool :=
  match v with
  | str t => t == s
  | _ => false

/-- The test `v === n` against a number literal. -/
def eqNum (v : JSVal) (n : Int) : Bool :=
  match v with
  | num k => k == n
  | _ => false

/-- The elements of an array value (`none` for a value that is no array). -/
def elems? : JSVal → Option (List JSVal)
  | arr xs => some xs
  | _ => none

/-- An array value with at least one element. -/
def isNonEmptyArray : JSVal → Bool
  | arr (_ :: _) => true
  | _ => false

/-- An array value with no element. -/
def isEmptyArray : JSVal → Bool
  | arr [] => true
  | _ => false

/-- A string value with at least one character. -/
def isNonEmptyString : JSVal → Bool
  | str s => s != ""
  | _ => false

/-- The test `v === null`. -/
def isNull : JSVal → Bool
  | null => true
  | _ => false

/-- The test `v === undefined`. -/
def isUndefined : JSVal → Bool
  | undefined => true
  | _ => false

/-- The test `v == null`: the two values whose property reads throw. -/
def isNullish : JSVal → Bool
  | undefined => true
  | null => true
  | _ => false

end JSVal

open JSVal

/-! ## Regular expressions

The patterns of `server.js` use character classes, concatenation, one
capture group, greedy or lazy repetition of a single character class and an
optional character.
`Re.run` is a backtracking matcher in continuation-passing style: it tries the
alternatives in the order ECMAScript does, so the first success is the match
`String.prototype.match` reports. -/

/-- Regular expressions (the fragment that `server.js` uses). -/
inductive Re where
  | cls (p : Char → Bool)
  | seq (a b : Re)
  | star (greedy : Bool) (p : Char → Bool)
  | group (a : Re)
  | opt (p : Char → Bool)

/-- Repetition `p*` (greedy) or `p*?` (lazy) followed by the continuation `k`. -/
def starRun {R : Type} (greedy : Bool) (p : Char → Bool) :
    List Char → (List Char → Option R) → Option R
  | [], k => k []
  | c :: cs, k =>
    if greedy then
      (if p c then starRun greedy p cs k else none) <|> k (c :: cs)
    else
      k (c :: cs) <|> (if p c then starRun greedy p cs k else none)

/-- Match `r` at the head of the input, then continue with `k` on the rest of
the input and the text of capture group 1. -/
def Re.run {R : Type} : Re → List Char → Option (List Char) →
    (List Char → Option (List Char) → Option R) → Option R
  | .cls _, [], _, _ => none
  | .cls p, c :: cs, cap, k => if p c then k cs cap else none
  | .seq a b, s, cap, k => a.run s cap (fun s1 cap1 => b.run s1 cap1 k)
  | .star g p, s, cap, k => starRun g p s (fun s1 => k s1 cap)
  | .group a, s, _, k =>
    a.run s none (fun s1 _ => k s1 (some (s.take (s.length - s1.length))))
  | .opt p, s, cap, k =>
    (match s with
      | [] => none
      | c :: cs => if p c then k cs cap else none) <|> k s cap

/-- Result of a match: the matched text `m[0]`, capture group `m[1]`
(`none` when the pattern has no group), and the input after the match. -/
structure Match where
  whole : List Char
  group1 : Option (List Char)
  rest : List Char

/-- Match `r` anchored at the head of `s`. -/
def Re.matchAt (r : Re) (s : List Char) : Option Match :=
  r.run s none (fun s1 cap =>
    some { whole := s.take (s.length - s1.length), group1 := cap, rest := s1 })

/-- The call `s.match(r)` for a pattern without the `g` flag: the match at the
leftmost position that has one. -/
def Re.search (r : Re) : List Char → Option Match
  | [] => r.matchAt []
  | c :: cs => r.matchAt (c :: cs) <|> r.search cs

/-- Sequence of patterns. -/
def Re.cat : List Re → Re
  | [] => .star true (fun _ => false)
  | [r] => r
  | r :: rs => .seq r (Re.cat rs)

/-- The pattern matching one given character. -/
def Re.chr (c : Char) : Re := .cls (fun d => d == c)

/-- The pattern matching a literal text. -/
def Re.lit (s : String) : Re := Re.cat (s.data.map Re.chr)

/-- The class `\s`: WhiteSpace and LineTerminator code units. -/
def isSpace (c : Char) : Bool :=
  let n := c.toNat
  n == 9 || n == 10 || n == 11 || n == 12 || n == 13 || n == 32 || n == 160 ||
  n == 5760 || (8192 ≤ n && n ≤ 8202) || n == 8232 || n == 8233 || n == 8239 ||
  n == 8287 || n == 12288 || n == 65279

/-- The class `\w`: `[A-Za-z0-9_]`. -/
def isWord (c : Char) : Bool :=
  let n := c.toNat
  (65 ≤ n && n ≤ 90) || (97 ≤ n && n ≤ 122) || (48 ≤ n && n ≤ 57) || n == 95

/-- The class `[\s\S]`: any code unit. -/
def anyChar (_ : Char) : Bool := true

/-- The three backticks that open or close a fenced block. -/
def fence : String := "\x60\x60\x60"

/-- The pattern `/[fence]json\n([\s\S]*?)\n[fence]/`. -/
def reFenceJson : Re :=
  Re.cat [Re.lit fence, Re.lit "json", Re.chr '\n',
    .group (.star false anyChar), Re.chr '\n', Re.lit fence]

/-- The pattern `/[fence]\n([\s\S]*?)\n[fence]/`. -/
def reFenceAny : Re :=
  Re.cat [Re.lit fence, Re.chr '\n',
    .group (.star false anyChar), Re.chr '\n', Re.lit fence]

/-- The pattern `/\[\s*\{[\s\S]*?\}\s*\]/` of `/api/generate-questions` (lazy). -/
def reArrayLazy : Re :=
  Re.cat [Re.chr '[', .star true isSpace, Re.chr '\x7b', .star false anyChar,
    Re.chr '\x7d', .star true isSpace, Re.chr ']']

/-- The pattern `/\[\s*\{[\s\S]*\}\s*\]/` of `/api/similar` (greedy). -/
def reArrayGreedy : Re :=
  Re.cat [Re.chr '[', .star true isSpace, Re.chr '\x7b', .star true anyChar,
    Re.chr '\x7d', .star true isSpace, Re.chr ']']

/-- The pattern `/\{[\s\S]*\}/` of `/api/similar`. -/
def reObject : Re :=
  Re.cat [Re.chr '\x7b', .star true anyChar, Re.chr '\x7d']

/-- The expression `jsonMatch[1] || jsonMatch[0]`: the capture when the pattern
has one and it is a non-empty string, the whole match otherwise. -/
def matchText (m : Match) : List Char :=
  match m.group1 with
  | some (c :: cs) => c :: cs
  | _ => m.whole

/-- The `jsonMatch` of `/api/generate-questions`: three patterns in order. -/
def jsonMatchQuestions (aiResponse : String) : Option Match :=
  reFenceJson.search aiResponse.data <|> reFenceAny.search aiResponse.data <|>
    reArrayLazy.search aiResponse.data

/-- The `jsonMatch` of `/api/similar`: four patterns in order. -/
def jsonMatchSimilar (aiResponse : String) : Option Match :=
  reFenceJson.search aiResponse.data <|> reFenceAny.search aiResponse.data <|>
    reArrayGreedy.search aiResponse.data <|> reObject.search aiResponse.data

/-- Payload Locator of `/api/generate-questions`: the located text
`jsonMatch[1] || jsonMatch[0]`, or `none` when no pattern matches. -/
def locateQuestions (aiResponse : String) : Option String :=
  (jsonMatchQuestions aiResponse).map (fun m => String.mk (matchText m))

/-- Payload Locator of `/api/similar`. -/
def locateSimilar (aiResponse : String) : Option String :=
  (jsonMatchSimilar aiResponse).map (fun m => String.mk (matchText m))

/-! ## String helpers -/

/-- The characters of a text whose code units all lie between the UTF-16
offsets `a` (included) and `b` (excluded); `offset` is the offset of the head
of the list.  A character outside the Basic Multilingual Plane that a cut
splits is left out: the code keeps one of its two code units, a lone
surrogate, which is no character. -/
def sliceUnits (a b : Nat) : List Char → Nat → List Char
  | [], _ => []
  | c :: cs, offset =>
    if a ≤ offset ∧ offset + utf16Size c ≤ b then
      c :: sliceUnits a b cs (offset + utf16Size c)
    else sliceUnits a b cs (offset + utf16Size c)

/-- The call `s.substring(a, b)`: the code units from offset `min a b` up to
offset `max a b`, both clamped to the length of `s`. -/
def substring (s : String) (a b : Nat) : String :=
  String.mk (sliceUnits (min a b) (max a b) s.data 0)

/-- The call `s.trim()`: strip white space and line terminators at both ends. -/
def trim (s : List Char) : List Char :=
  ((s.dropWhile isSpace).reverse.dropWhile isSpace).reverse

/-- The call `s.replace(r, ...)` for a pattern with the `g` flag: every match,
scanning left to right, is replaced by `repl` of it.  `skip` counts the code
units of the current match that are still to be passed over. -/
def replaceAll (r : Re) (repl : Match → List Char) : List Char → Nat → List Char
  | [], _ =>
    match r.matchAt [] with
    | some m => repl m
    | none => []
  | _ :: cs, skip + 1 => replaceAll r repl cs skip
  | c :: cs, 0 =>
    match r.matchAt (c :: cs) with
    | some m =>
      match m.whole.length with
      | 0 => repl m ++ c :: replaceAll r repl cs 0
      | n + 1 => repl m ++ replaceAll r repl cs n
    | none => c :: replaceAll r repl cs 0

/-- The clean-up `jsonStr.replace(/[fence]/g, '').trim()`. -/
def cleanJson (jsonStr : String) : String :=
  String.mk (trim (replaceAll (Re.lit fence) (fun _ => []) jsonStr.data 0))

/-- The pattern `/(\w+):/g`. -/
def reBareKey : Re :=
  Re.cat [.group (.seq (.cls isWord) (.star true isWord)), Re.chr ':']

/-- The repair of a payload that did not parse:
`jsonStr.replace(/(\w+):/g, '"$1":').replace(/'/g, '"')`. -/
def fixJson (jsonStr : String) : String :=
  let quoted := replaceAll reBareKey
    (fun m => '"' :: (m.group1.getD []) ++ ['"', ':']) jsonStr.data 0
  String.mk (replaceAll (Re.chr '\x27') (fun _ => ['"']) quoted 0)

/-! ## Fallback Synthesizer -/

/-- One option `{ key, text }`. -/
def optionEntry (key text : String) : JSVal :=
  .obj [("key", .str key), ("text", .str text)]

/-- The table `optionSets` of `generateDefaultOptions`. -/
def optionSets : List (List JSVal) :=
  [ [ optionEntry "A" "选项A：这是第一个选项内容",
      optionEntry "B" "选项B：这是第二个选项内容",
      optionEntry "C" "选项C：这是第三个选项内容",
      optionEntry "D" "选项D：这是第四个选项内容" ],
    [ optionEntry "A" "选项A：涉及核心知识点的内容",
      optionEntry "B" "选项B：常见干扰项，容易混淆",
      optionEntry "C" "选项C：部分正确但不完整",
      optionEntry "D" "选项D：完全错误的选项" ],
    [ optionEntry "A" "选项A：符合题意的正确答案",
      optionEntry "B" "选项B：与题目相关但不够准确",
      optionEntry "C" "选项C：看似正确实则错误",
      optionEntry "D" "选项D：明显不符合题意" ] ]

/-- The function `generateDefaultOptions(questionType, index)`. -/
def generateDefaultOptions (questionType : JSVal) (index : Nat) : List JSVal :=
  if questionType.eqStr "single" || questionType.eqStr "multi" then
    optionSets.getD (index % optionSets.length) []
  else []

/-- The body of the loop of `generateDefaultQuestions` at index `i`. -/
def defaultQuestion (material : String) (singleCount multiCount i : Nat) : JSVal :=
  let questionId := i + 1
  let questionType : String :=
    if i < singleCount then "single"
    else if i < singleCount + multiCount then "multi" else "blank"
  let rawTypeText : String :=
    if i < singleCount then "单选题"
    else if i < singleCount + multiCount then "多选题" else "填空题"
  .obj [
    ("id", .num questionId),
    ("type", .str questionType),
    ("stem", .str (rawTypeText ++ " " ++ toString questionId ++ ": " ++
      substring material (i * 20) ((i + 1) * 20) ++ "...")),
    ("options", .arr (if questionType = "blank" then []
      else generateDefaultOptions (.str questionType) i)),
    ("answer", .str (if questionType = "multi" then "AB" else "A")),
    ("knowledgePoints", .arr [.str "AI生成题目"]),
    ("difficulty", .str "medium"),
    ("rawTypeText", .str rawTypeText) ]

/-- The function `generateDefaultQuestions(material, singleCount, multiCount,
blankCount)`: the loop `for (i = 0; i < totalCount; i++)` pushes one record per
index, `totalCount` being `Math.min(singleCount + multiCount + blankCount, 10)`. -/
def generateDefaultQuestions (material : String)
    (singleCount multiCount blankCount : Nat) : List JSVal :=
  let totalCount := min (singleCount + multiCount + blankCount) 10
  (List.range totalCount).map (defaultQuestion material singleCount multiCount)

/-- The body of the loop of `generateDefaultSimilarQuestions` at index `i`;
`now i` is the reading of `Date.now()` in that iteration. -/
def defaultSimilarQuestion (now : Nat → Nat) (question : String)
    (correctAnswer questionType : JSVal) (i : Nat) : JSVal :=
  .obj [
    ("id", .num (now i + i : Nat)),
    ("stem", .str ("相似题 " ++ toString (i + 1) ++ ": " ++ substring question 0 60 ++
      "...（场景变化 " ++ toString (i + 1) ++ "）")),
    ("options", .arr (generateDefaultOptions questionType i)),
    ("answer", correctAnswer.or
      (.str (if questionType.eqStr "multi" then "AB" else "A"))),
    ("explanation", .str "基于原题的相似题，保持相同考点但更换了具体场景。"),
    ("difficulty", .str (if i = 0 then "easy" else if i = 1 then "medium" else "hard")),
    ("knowledgePoints", .arr [.str "相似题训练", .str "考点巩固"]),
    ("type", questionType),
    ("source", .str "ai-generated-fallback") ]

/-- The function `generateDefaultSimilarQuestions(question, correctAnswer,
questionType, count)`: one record per index below `Math.min(count, 5)`. -/
def generateDefaultSimilarQuestions (now : Nat → Nat) (question : String)
    (correctAnswer questionType : JSVal) (count : Nat) : List JSVal :=
  (List.range (min count 5)).map
    (defaultSimilarQuestion now question correctAnswer questionType)

/-! ## Record Normalizer of `/api/generate-questions` -/

/-- The positional type `idx < singleCount ? 'single' : idx < singleCount +
multiCount ? 'multi' : 'blank'`. -/
def positionalType (singleCount multiCount idx : Nat) : String :=
  if idx < singleCount then "single"
  else if idx < singleCount + multiCount then "multi" else "blank"

/-- The callback of `questions.slice(0, totalCount).map((q, idx) => ...)`:
the record `formattedQuestion` built from entry `q` at index `idx`, or `none`
when reading a property of `q` throws. -/
def formatQuestion (material : String) (singleCount multiCount : Nat)
    (q : JSVal) (idx : Nat) : Option JSVal := do
  let qType ← q.get "type"
  let qStem ← q.get "stem"
  let qAnswer ← q.get "answer"
  let qKnowledgePoints ← q.get "knowledgePoints"
  let qDifficulty ← q.get "difficulty"
  let qOptions ← q.get "options"
  let type := qType.or (.str (positionalType singleCount multiCount idx))
  let stem := qStem.or (.str ("题目 " ++ toString (idx + 1) ++ ": " ++
    substring material (idx * 30) ((idx + 1) * 30) ++ "..."))
  let answer := qAnswer.or (.str "A")
  let knowledgePoints :=
    if qKnowledgePoints.isArray then qKnowledgePoints
    else if qKnowledgePoints.truthy then .arr [qKnowledgePoints]
    else .arr [.str "AI生成"]
  let difficulty := qDifficulty.or (.str "medium")
  let rawTypeText : String :=
    if type.eqStr "single" then "单选题"
    else if type.eqStr "multi" then "多选题" else "填空题"
  let options : JSVal :=
    if type.eqStr "single" then
      qOptions.or (.arr (generateDefaultOptions (.str "single") idx))
    else if type.eqStr "multi" then
      qOptions.or (.arr (generateDefaultOptions (.str "multi") idx))
    else .arr []
  pure (.obj [
    ("id", .num (idx + 1 : Nat)),
    ("type", type),
    ("stem", stem),
    ("options", options),
    ("answer", answer),
    ("knowledgePoints", knowledgePoints),
    ("difficulty", difficulty),
    ("rawTypeText", .str rawTypeText) ])

/-- The call `xs.map((q, idx) => f(q, idx))` for a callback that may throw:
indices count from `start`. -/
def mapIdx? (f : JSVal → Nat → Option JSVal) : List JSVal → Nat → Option (List JSVal)
  | [], _ => some []
  | q :: qs, start =>
    match f q start with
    | none => none
    | some r =>
      match mapIdx? f qs (start + 1) with
      | none => none
      | some rs => some (r :: rs)

/-- The call `parseInt(n)` on a number `n` that is a non-negative integer.
`parseInt` prints its argument and reads the digits the text starts with.
Below 10^21 a number prints as its decimal digits, which read back as `n`.
From 10^21 on it prints in exponent notation (`1e+21`), and `parseInt` reads
only the digit before the point or the exponent: `leadingDigit n`, the first
digit that the built-in `Number.prototype.toString` prints for `n`. -/
def parseInt (leadingDigit : Nat → Nat) (n : Nat) : Nat :=
  if n < 10 ^ 21 then n else leadingDigit n

/-- The requested total `Math.min(parseInt(singleCount) + parseInt(multiCount) +
parseInt(blankCount), 20)` of `/api/generate-questions`. -/
def totalCount (leadingDigit : Nat → Nat) (singleCount multiCount blankCount : Nat) : Nat :=
  min (parseInt leadingDigit singleCount + parseInt leadingDigit multiCount +
    parseInt leadingDigit blankCount) 20

/-- Normalisation of `/api/generate-questions`: from the value
`questions` after the parse (or the fallback) to the batch that is returned.
A non-array is wrapped, the array is cut to `totalCount` and mapped through
`formatQuestion`; an exception in the map is caught and answered by
`generateDefaultQuestions`, and so is an empty batch. -/
def normalizeQuestions (leadingDigit : Nat → Nat) (material : String)
    (singleCount multiCount blankCount : Nat) (questions : JSVal) : List JSVal :=
  let entries : List JSVal :=
    match questions with
    | .arr xs => xs
    | v => [v]
  let formatted : List JSVal :=
    match mapIdx? (formatQuestion material singleCount multiCount)
        (entries.take (totalCount leadingDigit singleCount multiCount blankCount)) 0 with
    | some rs => rs
    | none => generateDefaultQuestions material singleCount multiCount blankCount
  if formatted.length = 0 then
    generateDefaultQuestions material singleCount multiCount blankCount
  else formatted

/-! ## Lenient Parser and the pipeline of `/api/generate-questions` -/

/-- A parse followed by the log line that reads `questions.length`: the
parsed value, or `none` when `JSON.parse` throws or the read of `length` does. -/
def parseAndLog (parse : String → Option JSVal) (text : String) : Option JSVal :=
  match parse text with
  | none => none
  | some v => if (v.get "length").isSome then some v else none

/-- Outcome of locating and parsing the reply. -/
inductive Located where
  | parsed (v : JSVal)
  | parseFailure
  | locatorMiss

/-- Locate the payload, parse it strictly, and on failure parse the repaired
text once. -/
def locateAndParse (parse : String → Option JSVal) (aiResponse : String) : Located :=
  match locateQuestions aiResponse with
  | none => .locatorMiss
  | some located =>
    let jsonStr := cleanJson located
    match parseAndLog parse jsonStr with
    | some v => .parsed v
    | none =>
      match parseAndLog parse (fixJson jsonStr) with
      | some v => .parsed v
      | none => .parseFailure

/-- The value of `questions` before normalisation: the parsed value, or the
batch of `generateDefaultQuestions` after a parse failure or a locator miss. -/
def questionsOf (material : String) (singleCount multiCount blankCount : Nat) :
    Located → JSVal
  | .parsed v => v
  | .parseFailure =>
    .arr (generateDefaultQuestions material singleCount multiCount blankCount)
  | .locatorMiss =>
    .arr (generateDefaultQuestions material singleCount multiCount blankCount)

/-- The batch `/api/generate-questions` returns for the reply `aiResponse`
(the handler from the computation of `totalCount` to the response). -/
def generateQuestions (leadingDigit : Nat → Nat) (parse : String → Option JSVal)
    (material : String) (singleCount multiCount blankCount : Nat)
    (aiResponse : String) : List JSVal :=
  normalizeQuestions leadingDigit material singleCount multiCount blankCount
    (questionsOf material singleCount multiCount blankCount
      (locateAndParse parse aiResponse))

/-! ## Record Normalizer of `/api/similar` -/

/-- The callback of `similarQuestions.slice(0, count).map((q, idx) => ...)`;
`now idx` is the reading of `Date.now()` in that call. -/
def formatSimilar (now : Nat → Nat) (question : String)
    (correctAnswer questionType knowledgePoints : JSVal)
    (q : JSVal) (idx : Nat) : Option JSVal := do
  let qStem ← q.get "stem"
  let qOptions ← q.get "options"
  let qAnswer ← q.get "answer"
  let qExplanation ← q.get "explanation"
  let qDifficulty ← q.get "difficulty"
  let qKnowledgePoints ← q.get "knowledgePoints"
  pure (.obj [
    ("id", .num (now idx + idx : Nat)),
    ("stem", qStem.or (.str ("相似题 " ++ toString (idx + 1) ++ ": " ++
      substring question 0 60 ++ "..."))),
    ("options", qOptions.or (.arr (generateDefaultOptions questionType idx))),
    ("answer", (qAnswer.or correctAnswer).or (.str "A")),
    ("explanation", qExplanation.or
      (.str "基于原题的相似题，保持相同考点但更换了具体场景。")),
    ("difficulty", qDifficulty.or (.str "medium")),
    ("knowledgePoints", (qKnowledgePoints.or knowledgePoints).or
      (.arr [.str "AI生成相似题"])),
    ("type", questionType),
    ("source", .str "ai-generated") ])

/-- Assignment `q.k = v` on an object: the field is overwritten in place, or
added at the end when the object has none of that name. -/
def setField (k : String) (v : JSVal) : List (String × JSVal) → List (String × JSVal)
  | [] => [(k, v)]
  | (k', w) :: rest => if k' = k then (k, v) :: rest else (k', w) :: setField k v rest

/-- The callback of the final `similarQuestions.map((q, idx) => ...)` of
`/api/similar`: for a choice type, missing or empty `options` are replaced by
`generateDefaultOptions(questionType, idx)`. -/
def ensureOptions (questionType : JSVal) (q : JSVal) (idx : Nat) : Option JSVal :=
  let assigned : JSVal :=
    match q with
    | .obj fs => .obj (setField "options" (.arr (generateDefaultOptions questionType idx)) fs)
    | v => v
  if questionType.eqStr "single" || questionType.eqStr "multi" then do
    let qOptions ← q.get "options"
    if !qOptions.truthy then pure assigned
    else do
      let len ← qOptions.get "length"
      if len.eqNum 0 then pure assigned else pure q
  else pure q

/-- The batch `/api/similar` returns for the reply `aiResponse`.  An exception
outside the inner `try` is answered by the handler's outer `catch`. -/
def generateSimilar (parse : String → Option JSVal) (now : Nat → Nat)
    (question : String) (correctAnswer questionType knowledgePoints : JSVal)
    (count : Nat) (aiResponse : String) : List JSVal :=
  let fallback :=
    generateDefaultSimilarQuestions now question correctAnswer questionType count
  let similarQuestions : List JSVal :=
    match locateSimilar aiResponse with
    | none => fallback
    | some jsonStr =>
      match parse (String.mk (trim jsonStr.data)) with
      | none => fallback
      | some parsed =>
        let entries : List JSVal :=
          match parsed with
          | .arr xs => xs
          | v => [v]
        match mapIdx? (formatSimilar now question correctAnswer questionType
            knowledgePoints) (entries.take count) 0 with
        | some rs => rs
        | none => fallback
  match mapIdx? (ensureOptions questionType) similarQuestions 0 with
  | some rs => rs
  | none =>
    generateDefaultSimilarQuestions now "网络连接失败，请检查后重试" (.str "--")
      (.str "single") 3

/-! ## Section Extractor -/

/-- A compiled pattern as `text.match(pattern)` uses it: from the text to the
leftmost match, if there is one. -/
abbrev Matcher : Type := List Char → Option Match

/-- The source of the first pattern, the template literal
`【[sectionName]】[：:]*\\s*([^【]*)` (bracketed label). -/
def bracketedSource (sectionName : String) : String :=
  "【" ++ sectionName ++ "】[：:]*\\s*([^【]*)"

/-- The source of the second pattern, the template literal
`[sectionName][：:]*\\s*([^\\n]*)` (inline label). -/
def inlineSource (sectionName : String) : String :=
  sectionName ++ "[：:]*\\s*([^\\n]*)"

/-- The source of the third pattern, the template literal
`##?\\s*[sectionName][：:]*\\s*([^\\n]*)` (heading marker). -/
def headingSource (sectionName : String) : String :=
  "##?\\s*" ++ sectionName ++ "[：:]*\\s*([^\\n]*)"

/-- The body of the loop over `patterns`: when
`match && match[1] && match[1].trim().length > 5` holds, the value
`match[1].trim()` that is returned. -/
def acceptedCapture (pattern : Matcher) (text : List Char) : Option String :=
  match pattern text with
  | none => none
  | some m =>
    match m.group1 with
    | none => none
    | some cap =>
      if !cap.isEmpty && decide (5 < utf16Length (trim cap)) then
        some (String.mk (trim cap))
      else none

/-- The loop `for (const pattern of patterns)`: the value returned by the
first pattern whose test holds. -/
def firstAccepted : List Matcher → List Char → Option String
  | [], _ => none
  | pattern :: rest, text =>
    match acceptedCapture pattern text with
    | some c => some c
    | none => firstAccepted rest text

/-- The call `text.split('\n')`. -/
def splitLines : List Char → List (List Char)
  | [] => [[]]
  | c :: cs =>
    if c == '\n' then [] :: splitLines cs
    else
      match splitLines cs with
      | [] => [[c]]
      | line :: lines => (c :: line) :: lines

/-- The placeholder returned for an absent or empty text. -/
def placeholderGenerating : String := "AI解析内容生成中..."

/-- The placeholder returned when no pattern is accepted and no line qualifies. -/
def placeholderGenerated : String := "AI解析生成成功，请查看详细内容。"

/-- The function `extractSection(text, sectionName)`; an absent text
(`undefined`, `null`) is `none`.  `regExp source` is the built-in
`new RegExp(source, 'i')`: the compiled pattern, or `none` when the constructor
throws a SyntaxError, which `extractSection` does not catch (result `none`). -/
def extractSection (regExp : String → Option Matcher) (text : Option String)
    (sectionName : String) : Option String :=
  match text with
  | none => some placeholderGenerating
  | some t =>
    if t = "" then some placeholderGenerating
    else
      match regExp (bracketedSource sectionName), regExp (inlineSource sectionName),
          regExp (headingSource sectionName) with
      | some bracketed, some inline, some heading =>
        match firstAccepted [bracketed, inline, heading] t.data with
        | some c => some c
        | none =>
          match (splitLines t.data).find?
              (fun line => decide (10 < utf16Length (trim line))) with
          | some line =>
            if line.isEmpty then some placeholderGenerated else some (String.mk line)
          | none => some placeholderGenerated
      | _, _, _ => none

/-! ### The patterns of a literal section name -/

/-- The pattern fragment of a section name that is literal text (it holds no
pattern metacharacter, as the names `/api/explain` passes).  Under the `i`
flag a code unit of the text matches a code unit of the name when both have
the same image under `canonicalize`, the built-in Canonicalize; a character
outside the Basic Multilingual Plane is two surrogate code units, which have
no case, so it matches itself only. -/
def reName (canonicalize : Char → Char) (sectionName : String) : Re :=
  Re.cat (sectionName.data.map (fun c => Re.cls (fun d =>
    if d.toNat < 65536 && c.toNat < 65536 then canonicalize d == canonicalize c
    else d == c)))

/-- The class `[：:]`. -/
def isColon (c : Char) : Bool := c == '：' || c == ':'

/-- The pattern `【name】[：:]*\s*([^【]*)` for a literal name. -/
def reBracketed (canonicalize : Char → Char) (sectionName : String) : Re :=
  Re.cat [Re.chr '【', reName canonicalize sectionName, Re.chr '】',
    .star true isColon, .star true isSpace, .group (.star true (fun c => c != '【'))]

/-- The pattern `name[：:]*\s*([^\n]*)` for a literal name. -/
def reInline (canonicalize : Char → Char) (sectionName : String) : Re :=
  Re.cat [reName canonicalize sectionName,
    .star true isColon, .star true isSpace, .group (.star true (fun c => c != '\n'))]

/-- The pattern `##?\s*name[：:]*\s*([^\n]*)` for a literal name. -/
def reHeading (canonicalize : Char → Char) (sectionName : String) : Re :=
  Re.cat [Re.chr '#', .opt (fun c => c == '#'), .star true isSpace,
    reName canonicalize sectionName,
    .star true isColon, .star true isSpace, .group (.star true (fun c => c != '\n'))]

/-- What `new RegExp(source, 'i')` builds for the three sources of a section
name that is literal text; other sources are not compiled here. -/
def literalRegExp (canonicalize : Char → Char) (sectionName : String) :
    String → Option Matcher :=
  fun source =>
    if source = bracketedSource sectionName then
      some (reBracketed canonicalize sectionName).search
    else if source = inlineSource sectionName then
      some (reInline canonicalize sectionName).search
    else if source = headingSource sectionName then
      some (reHeading canonicalize sectionName).search
    else none

/-! ## Auxiliary lemmas -/

theorem get_isSome (q : JSVal) (k : String) : (q.get k).isSome = !q.isNullish := by
  cases q <;> rfl

theorem formatQuestion_isSome (material : String) (s m : Nat) (q : JSVal) (idx : Nat) :
    (formatQuestion material s m q idx).isSome = !q.isNullish := by
  cases q <;> rfl

theorem mapIdx?_length {f : JSVal → Nat → Option JSVal} :
    ∀ (l : List JSVal) (start : Nat) (rs : List JSVal),
      mapIdx? f l start = some rs → rs.length = l.length
  | [], _, rs, h => by
    simp only [mapIdx?, Option.some.injEq] at h
    subst h; rfl
  | q :: qs, start, rs, h => by
    simp only [mapIdx?] at h
    cases hf : f q start with
    | none => simp [hf] at h
    | some r =>
      cases hrest : mapIdx? f qs (start + 1) with
      | none => simp [hf, hrest] at h
      | some rs1 =>
        simp only [hf, hrest, Option.some.injEq] at h
        subst h
        simp [mapIdx?_length qs (start + 1) rs1 hrest]

theorem mapIdx?_getElem? {f : JSVal → Nat → Option JSVal} :
    ∀ (l : List JSVal) (start : Nat) (rs : List JSVal),
      mapIdx? f l start = some rs →
      ∀ i, i < l.length → rs[i]? = l[i]?.bind (fun q => f q (start + i))
  | [], _, _, _, i, hi => by simp at hi
  | q :: qs, start, rs, h, i, hi => by
    simp only [mapIdx?] at h
    cases hf : f q start with
    | none => simp [hf] at h
    | some r =>
      cases hrest : mapIdx? f qs (start + 1) with
      | none => simp [hf, hrest] at h
      | some rs1 =>
        simp only [hf, hrest, Option.some.injEq] at h
        subst h
        cases i with
        | zero => simp [hf]
        | succ j =>
          have hj : j < qs.length := by simpa using hi
          have := mapIdx?_getElem? qs (start + 1) rs1 hrest j hj
          simp only [List.getElem?_cons_succ, this]
          have e : start + 1 + j = start + (j + 1) := by omega
          simp [e]

theorem mapIdx?_isSome {f : JSVal → Nat → Option JSVal} :
    ∀ (l : List JSVal) (start : Nat),
      (∀ q ∈ l, ∀ i, (f q i).isSome = true) → ∃ rs, mapIdx? f l start = some rs
  | [], _, _ => ⟨[], rfl⟩
  | q :: qs, start, h => by
    obtain ⟨r, hr⟩ := Option.isSome_iff_exists.mp (h q (List.mem_cons_self _ _) start)
    obtain ⟨rs, hrs⟩ := mapIdx?_isSome qs (start + 1)
      (fun q' hq' i => h q' (List.mem_cons_of_mem _ hq') i)
    exact ⟨r :: rs, by simp [mapIdx?, hr, hrs]⟩

theorem generateDefaultQuestions_length (material : String) (s m b : Nat) :
    (generateDefaultQuestions material s m b).length = min (s + m + b) 10 := by
  simp [generateDefaultQuestions]

theorem append_ne_empty (a b : String) (hb : b ≠ "") : a ++ b ≠ "" := by
  intro h
  apply hb
  have hd := congrArg String.data h
  rw [String.data_append] at hd
  simp at hd
  exact String.ext hd.2

/-- The normaliser's callback leaves a record of `generateDefaultQuestions`
as it is. -/
theorem formatQuestion_defaultQuestion (material : String) (s m i : Nat) :
    formatQuestion material s m (defaultQuestion material s m i) i
      = some (defaultQuestion material s m i) := by
  have hstem : ∀ a : String, a ++ "..." ≠ "" :=
    fun a => append_ne_empty a "..." (by decide)
  by_cases h1 : i < s
  · simp [formatQuestion, defaultQuestion, JSVal.get, JSVal.lookup, JSVal.or, h1,
      hstem, JSVal.truthy, JSVal.eqStr, JSVal.isArray]
  · by_cases h2 : i < s + m
    · simp [formatQuestion, defaultQuestion, JSVal.get, JSVal.lookup, JSVal.or, h1, h2,
        hstem, JSVal.truthy, JSVal.eqStr, JSVal.isArray]
    · simp [formatQuestion, defaultQuestion, JSVal.get, JSVal.lookup, JSVal.or, h1, h2,
        hstem, JSVal.truthy, JSVal.eqStr, JSVal.isArray]

theorem mapIdx?_map_range' {f : JSVal → Nat → Option JSVal} {g : Nat → JSVal}
    (h : ∀ i, f (g i) i = some (g i)) :
    ∀ (n start : Nat),
      mapIdx? f ((List.range' start n).map g) start = some ((List.range' start n).map g)
  | 0, _ => rfl
  | n + 1, start => by
    simp [List.range'_succ, mapIdx?, h, mapIdx?_map_range' h n (start + 1)]

theorem parseInt_of_lt (leadingDigit : Nat → Nat) {n : Nat} (h : n < 10 ^ 21) :
    parseInt leadingDigit n = n := by
  unfold parseInt
  rw [if_pos h]

theorem totalCount_of_lt (leadingDigit : Nat → Nat) {s m b : Nat}
    (hs : s < 10 ^ 21) (hm : m < 10 ^ 21) (hb : b < 10 ^ 21) :
    totalCount leadingDigit s m b = min (s + m + b) 20 := by
  unfold totalCount
  rw [parseInt_of_lt leadingDigit hs, parseInt_of_lt leadingDigit hm,
    parseInt_of_lt leadingDigit hb]

/-- The normalisation pass returns a batch of `generateDefaultQuestions`
unchanged, for counts that `parseInt` reads back. -/
theorem normalizeQuestions_default (leadingDigit : Nat → Nat) (material : String)
    (s m b : Nat) (hs : s < 10 ^ 21) (hm : m < 10 ^ 21) (hb : b < 10 ^ 21) :
    normalizeQuestions leadingDigit material s m b
        (.arr (generateDefaultQuestions material s m b))
      = generateDefaultQuestions material s m b := by
  have htake : (generateDefaultQuestions material s m b).take
      (totalCount leadingDigit s m b) = generateDefaultQuestions material s m b := by
    apply List.take_of_length_le
    rw [generateDefaultQuestions_length, totalCount_of_lt leadingDigit hs hm hb]; omega
  have hmap : mapIdx? (formatQuestion material s m)
      (generateDefaultQuestions material s m b) 0
      = some (generateDefaultQuestions material s m b) := by
    simp only [generateDefaultQuestions, List.range_eq_range']
    exact mapIdx?_map_range' (formatQuestion_defaultQuestion material s m) _ 0
  simp only [normalizeQuestions, htake, hmap]
  split <;> rfl

theorem optionSets_getD_mod (i : Nat) :
    ∃ ta tb tc td : String, optionSets.getD (i % 3) []
      = [optionEntry "A" ta, optionEntry "B" tb, optionEntry "C" tc, optionEntry "D" td] := by
  have h : i % 3 < 3 := Nat.mod_lt _ (by decide)
  interval_cases (i % 3)
  · exact ⟨_, _, _, _, rfl⟩
  · exact ⟨_, _, _, _, rfl⟩
  · exact ⟨_, _, _, _, rfl⟩

theorem generateDefaultQuestions_getElem? (material : String) (s m b i : Nat)
    (hi : i < (generateDefaultQuestions material s m b).length) :
    (generateDefaultQuestions material s m b)[i]? = some (defaultQuestion material s m i) := by
  rw [generateDefaultQuestions_length] at hi
  simp [generateDefaultQuestions, List.getElem?_range, hi]

/-- The `knowledgePoints` of a normalised record, as a function of the
entry's `knowledgePoints`. -/
theorem formatQuestion_get_knowledgePoints (material : String) (s m : Nat)
    (q kp : JSVal) (idx : Nat) (hkp : q.get "knowledgePoints" = some kp) :
    ∃ r, formatQuestion material s m q idx = some r ∧
      r.get "knowledgePoints" = some (if kp.isArray then kp
        else if kp.truthy then .arr [kp] else .arr [.str "AI生成"]) := by
  cases q with
  | undefined => simp [JSVal.get] at hkp
  | null => simp [JSVal.get] at hkp
  | bool _ =>
    simp only [JSVal.get, Option.some.injEq] at hkp; subst hkp
    exact ⟨_, rfl, rfl⟩
  | num _ =>
    simp only [JSVal.get, Option.some.injEq] at hkp; subst hkp
    exact ⟨_, rfl, rfl⟩
  | str _ =>
    simp only [JSVal.get, Option.some.injEq] at hkp; subst hkp
    exact ⟨_, rfl, rfl⟩
  | arr _ =>
    simp only [JSVal.get, Option.some.injEq] at hkp; subst hkp
    exact ⟨_, rfl, rfl⟩
  | obj fs =>
    simp only [JSVal.get, Option.some.injEq] at hkp; subst hkp
    exact ⟨_, rfl, rfl⟩

theorem mk_ne_empty_of_length_pos {l : List Char} (h : 0 < l.length) :
    String.mk l ≠ "" := by
  intro he
  have hd : l = [] := congrArg String.data he
  rw [hd] at h
  simp at h

theorem length_pos_of_utf16Length_pos {l : List Char} (h : 0 < utf16Length l) :
    0 < l.length := by
  cases l with
  | nil => simp [utf16Length] at h
  | cons _ _ => simp

theorem acceptedCapture_iff (pattern : Matcher) (text : List Char) (c : String) :
    acceptedCapture pattern text = some c ↔
      ∃ m cap, pattern text = some m ∧ m.group1 = some cap ∧
        5 < utf16Length (trim cap) ∧ c = String.mk (trim cap) := by
  unfold acceptedCapture
  constructor
  · intro h
    cases hm : pattern text with
    | none => simp [hm] at h
    | some m =>
      cases hg : m.group1 with
      | none => simp [hm, hg] at h
      | some cap =>
        simp only [hm, hg] at h
        by_cases hc : (!cap.isEmpty && decide (5 < utf16Length (trim cap))) = true
        · simp only [hc, if_true, Option.some.injEq] at h
          simp only [Bool.and_eq_true, decide_eq_true_eq] at hc
          exact ⟨m, cap, rfl, hg, hc.2, h.symm⟩
        · simp [hc] at h
  · rintro ⟨m, cap, hm, hg, hlen, hc⟩
    have hne : cap.isEmpty = false := by
      cases cap with
      | nil => simp [trim, utf16Length] at hlen
      | cons _ _ => rfl
    simp [hm, hg, hne, hlen, hc]

theorem acceptedCapture_ne_empty {pattern : Matcher} {text : List Char} {c : String}
    (h : acceptedCapture pattern text = some c) : c ≠ "" := by
  obtain ⟨m, cap, _, _, hlen, hc⟩ := (acceptedCapture_iff pattern text c).mp h
  rw [hc]
  exact mk_ne_empty_of_length_pos (length_pos_of_utf16Length_pos (by omega))

theorem firstAccepted_ne_empty :
    ∀ (patterns : List Matcher) (text : List Char) (c : String),
      firstAccepted patterns text = some c → c ≠ ""
  | [], _, _, h => by simp [firstAccepted] at h
  | p :: ps, text, c, h => by
    simp only [firstAccepted] at h
    cases hp : acceptedCapture p text with
    | some d =>
      simp only [hp, Option.some.injEq] at h
      subst h
      exact acceptedCapture_ne_empty hp
    | none =>
      simp only [hp] at h
      exact firstAccepted_ne_empty ps text c h

/-! ## Claims -/

set_option maxRecDepth 100000

/-- C1 (as stated, refuted): one parsed entry and a request for two single
questions gives a batch of one record, not of the requested two; and five
parsed entries with `singleCount = 10^21`, which `parseInt` reads as 1 (it
prints as `1e+21`), give a batch of one record although
`min(singleCount + multiCount + blankCount, 20)` is 20. -/
theorem c1_shortfall_not_filled :
    (normalizeQuestions (fun _ => 1) "光合作用是植物利用光能合成有机物的过程。" 2 0 0
      (.arr [.obj []])).length = 1 ∧
    min (2 + 0 + 0) 20 = 2 ∧
    (normalizeQuestions (fun _ => 1) "光合作用是植物利用光能合成有机物的过程。" (10 ^ 21) 0 0
      (.arr [.obj [], .obj [], .obj [], .obj [], .obj []])).length = 1 ∧
    min (10 ^ 21 + 0 + 0) 20 = 20 := by
  decide

/-- C1 (amended): for counts below 10^21 and a parsed array of `k ≥ 1` entries
none of whose first `n = min(singleCount + multiCount + blankCount, 20)`
entries is null, the normalised batch has exactly `min k n` records, and record
`i` is the normalisation of parsed entry `i`: the array is cut to `n` when
`k > n`, and nothing is added when `k < n`. -/
theorem normalizeQuestions_length (leadingDigit : Nat → Nat) (material : String)
    (s m b : Nat) (xs : List JSVal)
    (hs : s < 10 ^ 21) (hm : m < 10 ^ 21) (hb : b < 10 ^ 21)
    (hk : 1 ≤ xs.length)
    (hq : ∀ q ∈ xs.take (min (s + m + b) 20), q.isNullish = false) :
    (normalizeQuestions leadingDigit material s m b (.arr xs)).length
        = min xs.length (min (s + m + b) 20) ∧
    ∀ i, i < min xs.length (min (s + m + b) 20) →
      (normalizeQuestions leadingDigit material s m b (.arr xs))[i]?
        = xs[i]?.bind (fun q => formatQuestion material s m q i) := by
  have htotal := totalCount_of_lt leadingDigit hs hm hb
  obtain ⟨rs, hrs⟩ := mapIdx?_isSome (f := formatQuestion material s m)
    (xs.take (min (s + m + b) 20)) 0
    (fun q hmem i => by rw [formatQuestion_isSome, hq q hmem]; rfl)
  have hlen : rs.length = min (min (s + m + b) 20) xs.length := by
    rw [mapIdx?_length _ _ _ hrs, List.length_take]
  have hget := mapIdx?_getElem? _ _ _ hrs
  simp only [normalizeQuestions, htotal, hrs]
  by_cases h0 : rs.length = 0
  · have hsum : s + m + b = 0 := by omega
    have hnil : generateDefaultQuestions material s m b = [] := by
      apply List.eq_nil_of_length_eq_zero
      rw [generateDefaultQuestions_length, hsum]; rfl
    simp only [h0, if_true, hnil, hsum]
    constructor
    · simp
    · intro i hi; simp at hi
  · simp only [h0, if_false]
    constructor
    · rw [hlen, Nat.min_comm]
    · intro i hi
      have hi2 : i < (xs.take (min (s + m + b) 20)).length := by
        rw [List.length_take]; omega
      rw [hget i hi2]
      have : (xs.take (min (s + m + b) 20))[i]? = xs[i]? := by
        rw [List.getElem?_take]; simp; omega
      simp [this]

/-- C1 (amended), at a concrete input: two parsed entries, one requested. -/
theorem normalizeQuestions_length_witness :
    (normalizeQuestions (fun _ => 1) "光合作用是植物利用光能合成有机物的过程。" 1 0 0
        (.arr [.obj [], .obj []])).length
        = min [JSVal.obj [], JSVal.obj []].length (min (1 + 0 + 0) 20) ∧
    ∀ i, i < min [JSVal.obj [], JSVal.obj []].length (min (1 + 0 + 0) 20) →
      (normalizeQuestions (fun _ => 1) "光合作用是植物利用光能合成有机物的过程。" 1 0 0
          (.arr [.obj [], .obj []]))[i]?
        = [JSVal.obj [], JSVal.obj []][i]?.bind
            (fun q => formatQuestion "光合作用是植物利用光能合成有机物的过程。" 1 0 q i) :=
  normalizeQuestions_length (fun _ => 1) "光合作用是植物利用光能合成有机物的过程。" 1 0 0
    [.obj [], .obj []] (by decide) (by decide) (by decide) (by decide)
    (by
      intro q hq
      simp at hq
      subst hq; rfl)

/-- C2 (as stated, refuted): an entry at index 0 that carries `type: "multi"`,
normalised with `singleCount = 1`, comes out `multi` although position 0 is a
`single` position. -/
theorem c2_entry_type_wins :
    positionalType 1 0 0 = "single" ∧
    ∃ r, formatQuestion "学习材料" 1 0 (.obj [("type", .str "multi")]) 0 = some r ∧
      (r.get "type").map (fun t => t.eqStr "multi") = some true ∧
      (r.get "type").map (fun t => t.eqStr "single") = some false :=
  ⟨by decide, _, rfl, by decide, by decide⟩

/-- C2 (amended): the type of the record built from the entry at index `idx`
is the entry's own `type` field when that field is truthy, and otherwise
positional: `single` if `idx < singleCount`, `multi` if
`singleCount ≤ idx < singleCount + multiCount`, `blank` otherwise. -/
theorem formatQuestion_type (material : String) (s m : Nat) (q t : JSVal) (idx : Nat)
    (ht : q.get "type" = some t) :
    ∃ r, formatQuestion material s m q idx = some r ∧
      r.get "type" = some (if t.truthy then t else
        .str (if idx < s then "single" else if idx < s + m then "multi" else "blank")) := by
  cases q with
  | undefined => simp [JSVal.get] at ht
  | null => simp [JSVal.get] at ht
  | bool _ =>
    simp only [JSVal.get, Option.some.injEq] at ht; subst ht
    exact ⟨_, rfl, rfl⟩
  | num _ =>
    simp only [JSVal.get, Option.some.injEq] at ht; subst ht
    exact ⟨_, rfl, rfl⟩
  | str _ =>
    simp only [JSVal.get, Option.some.injEq] at ht; subst ht
    exact ⟨_, rfl, rfl⟩
  | arr _ =>
    simp only [JSVal.get, Option.some.injEq] at ht; subst ht
    exact ⟨_, rfl, rfl⟩
  | obj fs =>
    simp only [JSVal.get, Option.some.injEq] at ht; subst ht
    exact ⟨_, rfl, rfl⟩

/-- C2 (amended), at concrete inputs: an entry without `type` at index 1 with
`singleCount = 1`, `multiCount = 1`. -/
theorem formatQuestion_type_witness :
    ∃ r, formatQuestion "学习材料" 1 1 (.obj [("stem", .str "Q")]) 1 = some r ∧
      r.get "type" = some (if JSVal.undefined.truthy then JSVal.undefined else
        .str (if 1 < 1 then "single" else if 1 < 1 + 1 then "multi" else "blank")) :=
  formatQuestion_type "学习材料" 1 1 (.obj [("stem", .str "Q")]) .undefined 1 rfl

/-- C3 (the code at the failing input): an entry with `options: []` at a
`single` position is returned as a `single` record whose `options` is the empty
array, whereas the final pass of `/api/similar` replaces an empty `options` by
the synthesised template. -/
theorem c3_empty_options_kept :
    (∃ r, formatQuestion "学习材料" 1 0 (.obj [("options", .arr [])]) 0 = some r ∧
      (r.get "type").map (fun t => t.eqStr "single") = some true ∧
      (r.get "options").map JSVal.isEmptyArray = some true) ∧
    (∃ r, ensureOptions (.str "single") (.obj [("options", .arr [])]) 0 = some r ∧
      r.get "options" = some (.arr (generateDefaultOptions (.str "single") 0)) ∧
      (r.get "options").map JSVal.isNonEmptyArray = some true) :=
  ⟨⟨_, rfl, by decide, by decide⟩, ⟨_, rfl, rfl, by decide⟩⟩

/-- C4 (as stated, refuted): on the fallback path a request for eleven
questions, which is below the cap of 20, is answered by ten records; and a
request with `singleCount = 10^21`, which `parseInt` reads as 1 (it prints as
`1e+21`), is answered by one record although the requested total is capped
at 20. -/
theorem c4_fallback_capped_at_ten :
    locateAndParse (fun _ => none) "no structure here" = .locatorMiss ∧
    (generateQuestions (fun _ => 1) (fun _ => none)
      "光合作用是植物利用光能合成有机物的过程。" 11 0 0 "no structure here").length = 10 ∧
    min (11 + 0 + 0) 20 = 11 ∧
    (generateQuestions (fun _ => 1) (fun _ => none)
      "光合作用是植物利用光能合成有机物的过程。" (10 ^ 21) 0 0 "no structure here").length = 1 ∧
    min (10 ^ 21 + 0 + 0) 20 = 20 :=
  ⟨rfl, by decide, by decide, by decide, by decide⟩

/-- C4 (amended): on the fallback path (locator miss, or payload unparseable),
for counts below 10^21, the pipeline returns exactly
`min(singleCount + multiCount + blankCount, 10)` records, 10 being the cap of
`generateDefaultQuestions`; in particular exactly the requested total whenever
that total is at most 10. -/
theorem generateQuestions_fallback_length (leadingDigit : Nat → Nat)
    (parse : String → Option JSVal)
    (material : String) (s m b : Nat) (aiResponse : String)
    (hs : s < 10 ^ 21) (hm : m < 10 ^ 21) (hb : b < 10 ^ 21)
    (h : locateAndParse parse aiResponse = .locatorMiss ∨
         locateAndParse parse aiResponse = .parseFailure) :
    (generateQuestions leadingDigit parse material s m b aiResponse).length
        = min (s + m + b) 10 ∧
    (s + m + b ≤ 10 →
      (generateQuestions leadingDigit parse material s m b aiResponse).length
        = s + m + b) := by
  have hlen : (generateQuestions leadingDigit parse material s m b aiResponse).length
      = min (s + m + b) 10 := by
    unfold generateQuestions
    rcases h with h | h <;>
      simp only [h, questionsOf, normalizeQuestions_default leadingDigit material s m b hs hm hb,
        generateDefaultQuestions_length]
  exact ⟨hlen, fun hle => by rw [hlen]; omega⟩

/-- C4 (amended), at a concrete input: an unparseable located payload, three
questions requested. -/
theorem generateQuestions_fallback_length_witness :
    (generateQuestions (fun _ => 1) (fun _ => none)
        "光合作用是植物利用光能合成有机物的过程。" 2 1 0 "[\x7bstem\x7d]").length
        = min (2 + 1 + 0) 10 ∧
    (2 + 1 + 0 ≤ 10 →
      (generateQuestions (fun _ => 1) (fun _ => none)
          "光合作用是植物利用光能合成有机物的过程。" 2 1 0 "[\x7bstem\x7d]").length
        = 2 + 1 + 0) :=
  generateQuestions_fallback_length (fun _ => 1) (fun _ => none)
    "光合作用是植物利用光能合成有机物的过程。" 2 1 0 "[\x7bstem\x7d]"
    (by decide) (by decide) (by decide) (Or.inr rfl)

/-- C5 (the code at the failing input): for an unfenced array whose object
holds a nested `options` array, the locator of `/api/generate-questions` (lazy
pattern) returns the text up to the first closing bracket only, a proper prefix
of the payload; the locator of `/api/similar` (greedy pattern) returns the
whole array. -/
theorem c5_locator_returns_prefix :
    locateQuestions
        "[\x7b\"stem\":\"Q\",\"options\":[\x7b\"key\":\"A\",\"text\":\"x\"\x7d],\"answer\":\"A\"\x7d]"
      = some "[\x7b\"stem\":\"Q\",\"options\":[\x7b\"key\":\"A\",\"text\":\"x\"\x7d]" ∧
    locateQuestions
        "[\x7b\"stem\":\"Q\",\"options\":[\x7b\"key\":\"A\",\"text\":\"x\"\x7d],\"answer\":\"A\"\x7d]"
      ≠ some "[\x7b\"stem\":\"Q\",\"options\":[\x7b\"key\":\"A\",\"text\":\"x\"\x7d],\"answer\":\"A\"\x7d]" ∧
    locateSimilar
        "[\x7b\"stem\":\"Q\",\"options\":[\x7b\"key\":\"A\",\"text\":\"x\"\x7d],\"answer\":\"A\"\x7d]"
      = some "[\x7b\"stem\":\"Q\",\"options\":[\x7b\"key\":\"A\",\"text\":\"x\"\x7d],\"answer\":\"A\"\x7d]" := by
  decide

/-- C6 (as stated, refuted): with `singleCount = 10^21`, which `parseInt`
reads as 1 (it prints as `1e+21`), `generateDefaultQuestions` builds ten
records and the normalisation pass that follows a locator miss keeps only the
first, so the batch is not that of `generateDefaultQuestions`: nine records are
dropped. -/
theorem c6_normalisation_drops_records :
    locateAndParse (fun _ => none) "no structure here" = .locatorMiss ∧
    (generateDefaultQuestions "光合作用是植物利用光能合成有机物的过程。" (10 ^ 21) 0 0).length
      = 10 ∧
    (generateQuestions (fun _ => 1) (fun _ => none)
      "光合作用是植物利用光能合成有机物的过程。" (10 ^ 21) 0 0 "no structure here").length = 1 ∧
    (generateQuestions (fun _ => 1) (fun _ => none)
      "光合作用是植物利用光能合成有机物的过程。" (10 ^ 21) 0 0 "no structure here").length
      ≠ (generateDefaultQuestions "光合作用是植物利用光能合成有机物的过程。"
          (10 ^ 21) 0 0).length :=
  ⟨rfl, by decide, by decide, by decide⟩

/-- C6 (amended): for counts below 10^21, a locator miss and a parse failure
give the same batch for the same material and counts, and that batch is
`generateDefaultQuestions(material, singleCount, multiCount, blankCount)`: the
normalisation pass changes none of its records and drops none. -/
theorem generateQuestions_miss_eq_failure (leadingDigit : Nat → Nat)
    (parse : String → Option JSVal)
    (material : String) (s m b : Nat) (missed unparseable : String)
    (hs : s < 10 ^ 21) (hm : m < 10 ^ 21) (hb : b < 10 ^ 21)
    (hmiss : locateAndParse parse missed = .locatorMiss)
    (hfail : locateAndParse parse unparseable = .parseFailure) :
    generateQuestions leadingDigit parse material s m b missed
      = generateQuestions leadingDigit parse material s m b unparseable ∧
    generateQuestions leadingDigit parse material s m b missed
      = generateDefaultQuestions material s m b ∧
    normalizeQuestions leadingDigit material s m b
        (.arr (generateDefaultQuestions material s m b))
      = generateDefaultQuestions material s m b := by
  have hdef := normalizeQuestions_default leadingDigit material s m b hs hm hb
  have h1 : generateQuestions leadingDigit parse material s m b missed
      = generateDefaultQuestions material s m b := by
    simp only [generateQuestions, hmiss, questionsOf, hdef]
  have h2 : generateQuestions leadingDigit parse material s m b unparseable
      = generateDefaultQuestions material s m b := by
    simp only [generateQuestions, hfail, questionsOf, hdef]
  exact ⟨h1.trans h2.symm, h1, hdef⟩

/-- C6 (amended), at concrete inputs: plain prose (locator miss) and a located
payload that neither parses nor is repaired (parse failure). -/
theorem generateQuestions_miss_eq_failure_witness :
    generateQuestions (fun _ => 1) (fun _ => none)
        "光合作用是植物利用光能合成有机物的过程。" 2 1 0 "no structure here"
      = generateQuestions (fun _ => 1) (fun _ => none)
        "光合作用是植物利用光能合成有机物的过程。" 2 1 0 "[\x7bstem\x7d]" ∧
    generateQuestions (fun _ => 1) (fun _ => none)
        "光合作用是植物利用光能合成有机物的过程。" 2 1 0 "no structure here"
      = generateDefaultQuestions "光合作用是植物利用光能合成有机物的过程。" 2 1 0 ∧
    normalizeQuestions (fun _ => 1) "光合作用是植物利用光能合成有机物的过程。" 2 1 0
        (.arr (generateDefaultQuestions "光合作用是植物利用光能合成有机物的过程。" 2 1 0))
      = generateDefaultQuestions "光合作用是植物利用光能合成有机物的过程。" 2 1 0 :=
  generateQuestions_miss_eq_failure (fun _ => 1) (fun _ => none)
    "光合作用是植物利用光能合成有机物的过程。" 2 1 0
    "no structure here" "[\x7bstem\x7d]" (by decide) (by decide) (by decide) rfl rfl

/-- C7: record `i` (0-based) of `generateDefaultQuestions(material, s, m, b)`
has id `i + 1`, the positional type, for `single`/`multi` the four-option
template number `i mod 3` with keys A, B, C, D in that order and for `blank` no
options, a non-empty stem, the answer `"AB"` (multi) or `"A"`, the one-element
knowledgePoints and difficulty `medium`; the ids of a batch are pairwise
distinct, and the batch for `s = m = b = 0` is empty. -/
theorem generateDefaultQuestions_records (material : String) (s m b : Nat) :
    (∀ i, i < (generateDefaultQuestions material s m b).length →
      ∃ r stem, (generateDefaultQuestions material s m b)[i]? = some r ∧
        r.get "id" = some (.num (i + 1 : Nat)) ∧
        r.get "type" = some (.str
          (if i < s then "single" else if i < s + m then "multi" else "blank")) ∧
        r.get "options" = some (.arr
          (if i < s + m then optionSets.getD (i % 3) [] else [])) ∧
        (i < s + m → ∃ ta tb tc td : String, r.get "options" = some (.arr
          [optionEntry "A" ta, optionEntry "B" tb, optionEntry "C" tc,
            optionEntry "D" td])) ∧
        r.get "stem" = some (.str stem) ∧ stem ≠ "" ∧
        r.get "answer" = some (.str
          (if i < s then "A" else if i < s + m then "AB" else "A")) ∧
        r.get "knowledgePoints" = some (.arr [.str "AI生成题目"]) ∧
        r.get "difficulty" = some (.str "medium")) ∧
    ((generateDefaultQuestions material s m b).map (fun r => r.get "id")).Nodup ∧
    generateDefaultQuestions material 0 0 0 = [] := by
  refine ⟨?_, ?_, rfl⟩
  · intro i hi
    have hstem : ∀ a : String, a ++ "..." ≠ "" :=
      fun a => append_ne_empty a "..." (by decide)
    refine ⟨_, _, generateDefaultQuestions_getElem? material s m b i hi,
      rfl, ?_, ?_, ?_, rfl, hstem _, ?_, rfl, rfl⟩
    · by_cases h1 : i < s
      · simp [defaultQuestion, JSVal.get, JSVal.lookup, h1]
      · by_cases h2 : i < s + m <;>
          simp [defaultQuestion, JSVal.get, JSVal.lookup, h1, h2]
    · by_cases h1 : i < s
      · have h2 : i < s + m := by omega
        simp [defaultQuestion, JSVal.get, JSVal.lookup, h1, h2, generateDefaultOptions,
          JSVal.eqStr, optionSets]
      · by_cases h2 : i < s + m <;>
          simp [defaultQuestion, JSVal.get, JSVal.lookup, h1, h2, generateDefaultOptions,
            JSVal.eqStr, optionSets]
    · intro h2
      obtain ⟨ta, tb, tc, td, ht⟩ := optionSets_getD_mod i
      refine ⟨ta, tb, tc, td, ?_⟩
      rw [← ht]
      by_cases h1 : i < s
      · simp [defaultQuestion, JSVal.get, JSVal.lookup, h1, generateDefaultOptions,
          JSVal.eqStr, optionSets]
      · simp [defaultQuestion, JSVal.get, JSVal.lookup, h1, h2, generateDefaultOptions,
          JSVal.eqStr, optionSets]
    · by_cases h1 : i < s
      · simp [defaultQuestion, JSVal.get, JSVal.lookup, h1]
      · by_cases h2 : i < s + m <;>
          simp [defaultQuestion, JSVal.get, JSVal.lookup, h1, h2]
  · have hmap : (generateDefaultQuestions material s m b).map (fun r => r.get "id")
        = (List.range (min (s + m + b) 10)).map
            (fun i => some (JSVal.num ((i + 1 : Nat) : Int))) := by
      simp [generateDefaultQuestions, defaultQuestion, JSVal.get, JSVal.lookup,
        Function.comp_def]
    rw [hmap]
    apply List.Nodup.map _ (List.nodup_range _)
    intro a c hac
    simp only [Option.some.injEq, JSVal.num.injEq] at hac
    have hac2 : a + 1 = c + 1 := by exact_mod_cast hac
    omega

/-- C7, at a concrete input: record 1 of the batch for one question of each
type is the `multi` record with id 2 and the second option template. -/
theorem generateDefaultQuestions_records_witness :
    1 < (generateDefaultQuestions "学习材料" 1 1 1).length ∧
    ∃ r stem, (generateDefaultQuestions "学习材料" 1 1 1)[1]? = some r ∧
      r.get "id" = some (.num ((1 + 1 : Nat) : Int)) ∧
      r.get "type" = some (.str
        (if 1 < 1 then "single" else if 1 < 1 + 1 then "multi" else "blank")) ∧
      r.get "options" = some (.arr
        (if 1 < 1 + 1 then optionSets.getD (1 % 3) [] else [])) ∧
      (1 < 1 + 1 → ∃ ta tb tc td : String, r.get "options" = some (.arr
        [optionEntry "A" ta, optionEntry "B" tb, optionEntry "C" tc,
          optionEntry "D" td])) ∧
      r.get "stem" = some (.str stem) ∧ stem ≠ "" ∧
      r.get "answer" = some (.str
        (if 1 < 1 then "A" else if 1 < 1 + 1 then "AB" else "A")) ∧
      r.get "knowledgePoints" = some (.arr [.str "AI生成题目"]) ∧
      r.get "difficulty" = some (.str "medium") :=
  ⟨by decide, (generateDefaultQuestions_records "学习材料" 1 1 1).1 1 (by decide)⟩

/-- C8 (as stated, refuted): the record of `generateDefaultQuestions` has no
`source` field, so it carries no provenance tag. -/
theorem c8_default_question_untagged :
    (generateDefaultQuestions "学习材料" 1 0 0).map
        (fun r => (r.get "source").map JSVal.isUndefined) = [some true] ∧
    (generateDefaultQuestions "学习材料" 1 0 0).map
        (fun r => (r.get "source").map (fun t => t.eqStr "ai-generated-fallback"))
      = [some false] := by
  decide

/-- C8 (amended): every record of `generateDefaultSimilarQuestions` carries
`source = "ai-generated-fallback"`, every similar-question record built from a
parsed entry carries `source = "ai-generated"`, and the two tags differ; the
records of `generateDefaultQuestions`, like those the question-generation
normaliser builds from parsed entries, have no `source` field. -/
theorem provenance_tags (now : Nat → Nat) (question material : String)
    (correctAnswer questionType knowledgePoints q : JSVal) (count s m b idx : Nat) :
    (generateDefaultSimilarQuestions now question correctAnswer questionType count).map
        (fun r => r.get "source")
      = List.replicate (min count 5) (some (.str "ai-generated-fallback")) ∧
    (formatSimilar now question correctAnswer questionType knowledgePoints q idx).map
        (fun r => r.get "source")
      = (if q.isNullish then none else some (some (.str "ai-generated"))) ∧
    "ai-generated-fallback" ≠ "ai-generated" ∧
    (generateDefaultQuestions material s m b).map (fun r => r.get "source")
      = List.replicate (min (s + m + b) 10) (some .undefined) ∧
    (formatQuestion material s m q idx).map (fun r => r.get "source")
      = (if q.isNullish then none else some (some .undefined)) := by
  refine ⟨?_, ?_, by decide, ?_, ?_⟩
  · simp [generateDefaultSimilarQuestions, defaultSimilarQuestion, JSVal.get, JSVal.lookup,
      Function.comp_def, List.eq_replicate_iff]
  · cases q <;> rfl
  · simp [generateDefaultQuestions, defaultQuestion, JSVal.get, JSVal.lookup,
      Function.comp_def, List.eq_replicate_iff]
  · cases q <;> rfl

/-- C9 (the code at the failing input): for an entry without `answer` at a
`multi` position, with no original correct answer, both normalisers set
`answer` to `"A"`, not `"AB"`; the synthesisers `generateDefaultQuestions` and
`generateDefaultSimilarQuestions` give `"AB"` for the same type. -/
theorem c9_multi_answer_defaults_to_A :
    (∃ r, formatQuestion "学习材料" 0 1 (.obj [("stem", .str "Q")]) 0 = some r ∧
      (r.get "type").map (fun t => t.eqStr "multi") = some true ∧
      (r.get "answer").map (fun a => a.eqStr "A") = some true ∧
      (r.get "answer").map (fun a => a.eqStr "AB") = some false) ∧
    (∃ r, formatSimilar (fun _ => 0) "原题" .undefined (.str "multi") .undefined
        (.obj [("stem", .str "Q")]) 0 = some r ∧
      (r.get "type").map (fun t => t.eqStr "multi") = some true ∧
      (r.get "answer").map (fun a => a.eqStr "A") = some true ∧
      (r.get "answer").map (fun a => a.eqStr "AB") = some false) ∧
    (generateDefaultQuestions "学习材料" 0 1 0).map
        (fun r => (r.get "answer").map (fun a => a.eqStr "AB")) = [some true] ∧
    (generateDefaultSimilarQuestions (fun _ => 0) "原题" .undefined (.str "multi") 1).map
        (fun r => (r.get "answer").map (fun a => a.eqStr "AB")) = [some true] :=
  ⟨⟨_, rfl, by decide, by decide, by decide⟩,
   ⟨_, rfl, by decide, by decide, by decide⟩, by decide, by decide⟩

/-- C10 (as stated, refuted): an entry whose `knowledgePoints` is the empty
array is returned with an empty `knowledgePoints`. -/
theorem c10_empty_knowledgePoints_kept :
    ∃ r, formatQuestion "学习材料" 1 0 (.obj [("knowledgePoints", .arr [])]) 0 = some r ∧
      (r.get "knowledgePoints").map JSVal.isEmptyArray = some true ∧
      (r.get "knowledgePoints").map JSVal.isNonEmptyArray = some false :=
  ⟨_, rfl, by decide, by decide⟩

/-- C10 (amended): the record built from an entry has an array as
`knowledgePoints`, and that array is non-empty exactly when the entry's
`knowledgePoints` is not the empty array: absent, a bare string or any other
non-array value, and a non-empty array all give a non-empty array, while an
empty array is passed through. -/
theorem formatQuestion_knowledgePoints (material : String) (s m : Nat)
    (q kp : JSVal) (idx : Nat) (hkp : q.get "knowledgePoints" = some kp) :
    ∃ r v, formatQuestion material s m q idx = some r ∧
      r.get "knowledgePoints" = some v ∧
      v.isArray = true ∧
      v.isNonEmptyArray = !kp.isEmptyArray := by
  obtain ⟨r, hr, hv⟩ := formatQuestion_get_knowledgePoints material s m q kp idx hkp
  refine ⟨r, _, hr, hv, ?_, ?_⟩
  · cases kp with
    | arr xs => rfl
    | undefined => rfl
    | null => rfl
    | bool c => cases c <;> rfl
    | num n => by_cases hn : n = 0 <;> simp [JSVal.isArray, JSVal.truthy, hn]
    | str t => by_cases ht : t = "" <;> simp [JSVal.isArray, JSVal.truthy, ht]
    | obj fs => rfl
  · cases kp with
    | arr xs => cases xs <;> rfl
    | undefined => rfl
    | null => rfl
    | bool c => cases c <;> rfl
    | num n =>
      by_cases hn : n = 0 <;>
        simp [JSVal.isArray, JSVal.truthy, JSVal.isNonEmptyArray, JSVal.isEmptyArray, hn]
    | str t =>
      by_cases ht : t = "" <;>
        simp [JSVal.isArray, JSVal.truthy, JSVal.isNonEmptyArray, JSVal.isEmptyArray, ht]
    | obj fs => rfl

/-- C10 (amended), at a concrete input: a bare string as `knowledgePoints`. -/
theorem formatQuestion_knowledgePoints_witness :
    ∃ r v, formatQuestion "学习材料" 1 0 (.obj [("knowledgePoints", .str "代数")]) 0 = some r ∧
      r.get "knowledgePoints" = some v ∧
      v.isArray = true ∧
      v.isNonEmptyArray = !(JSVal.str "代数").isEmptyArray :=
  formatQuestion_knowledgePoints "学习材料" 1 0 (.obj [("knowledgePoints", .str "代数")])
    (.str "代数") 0 rfl

/-- C11: an entry with a non-empty stem, a non-empty answer and a non-empty
options sequence is normalised to a record with that same stem and that same
answer, and, when the record's type is `single` or `multi`, with that same
options sequence; and the json-fenced reply holding the one entry with stem
"2+2=?", options A:"3", B:"4" and answer "B", with `singleCount = 1`, yields
exactly one record: `single`, stem "2+2=?", answer "B", those two options. -/
theorem formatQuestion_preserves_content (leadingDigit : Nat → Nat)
    (parse : String → Option JSVal)
    (material : String) (s m b : Nat) (q : JSVal) (idx : Nat)
    (stem answer : String) (opts : List JSVal)
    (hstem : q.get "stem" = some (.str stem)) (hs : stem ≠ "")
    (hanswer : q.get "answer" = some (.str answer)) (ha : answer ≠ "")
    (hopts : q.get "options" = some (.arr opts)) (_ho : opts ≠ [])
    (hparse : parse
        "[\x7b\"stem\":\"2+2=?\",\"options\":[\x7b\"key\":\"A\",\"text\":\"3\"\x7d,\x7b\"key\":\"B\",\"text\":\"4\"\x7d],\"answer\":\"B\"\x7d]"
      = some (.arr [.obj [("stem", .str "2+2=?"),
          ("options", .arr [optionEntry "A" "3", optionEntry "B" "4"]),
          ("answer", .str "B")]])) :
    (∃ r t, formatQuestion material s m q idx = some r ∧
      r.get "stem" = some (.str stem) ∧
      r.get "answer" = some (.str answer) ∧
      r.get "type" = some t ∧
      ((t.eqStr "single" || t.eqStr "multi") = true →
        r.get "options" = some (.arr opts))) ∧
    generateQuestions leadingDigit parse material 1 m b
        "\x60\x60\x60json\n[\x7b\"stem\":\"2+2=?\",\"options\":[\x7b\"key\":\"A\",\"text\":\"3\"\x7d,\x7b\"key\":\"B\",\"text\":\"4\"\x7d],\"answer\":\"B\"\x7d]\n\x60\x60\x60"
      = [.obj [("id", .num 1), ("type", .str "single"), ("stem", .str "2+2=?"),
          ("options", .arr [optionEntry "A" "3", optionEntry "B" "4"]),
          ("answer", .str "B"), ("knowledgePoints", .arr [.str "AI生成"]),
          ("difficulty", .str "medium"), ("rawTypeText", .str "单选题")]] := by
  constructor
  · cases q with
    | undefined => simp [JSVal.get] at hstem
    | null => simp [JSVal.get] at hstem
    | bool _ => simp [JSVal.get] at hstem
    | num _ => simp [JSVal.get] at hstem
    | str _ => simp [JSVal.get] at hstem
    | arr _ => simp [JSVal.get] at hstem
    | obj fs =>
      simp only [JSVal.get, Option.some.injEq] at hstem hanswer hopts
      have hor : ∀ x, (JSVal.arr opts).or x = .arr opts := fun _ => rfl
      refine ⟨_, (lookup "type" fs).or (.str (positionalType s m idx)), rfl, ?_, ?_, rfl, ?_⟩
      · simp [JSVal.get, JSVal.lookup, hstem, JSVal.or, JSVal.truthy, hs]
      · simp [JSVal.get, JSVal.lookup, hanswer, JSVal.or, JSVal.truthy, ha]
      · intro ht
        cases h1 : ((lookup "type" fs).or (.str (positionalType s m idx))).eqStr "single" <;>
          cases h2 : ((lookup "type" fs).or (.str (positionalType s m idx))).eqStr "multi" <;>
          simp [h1, h2] at ht <;>
          simp [JSVal.get, JSVal.lookup, hopts, hor, h1, h2]
  · have hloc : locateQuestions
        "\x60\x60\x60json\n[\x7b\"stem\":\"2+2=?\",\"options\":[\x7b\"key\":\"A\",\"text\":\"3\"\x7d,\x7b\"key\":\"B\",\"text\":\"4\"\x7d],\"answer\":\"B\"\x7d]\n\x60\x60\x60"
        = some "[\x7b\"stem\":\"2+2=?\",\"options\":[\x7b\"key\":\"A\",\"text\":\"3\"\x7d,\x7b\"key\":\"B\",\"text\":\"4\"\x7d],\"answer\":\"B\"\x7d]" := by
      decide
    have hclean : cleanJson
        "[\x7b\"stem\":\"2+2=?\",\"options\":[\x7b\"key\":\"A\",\"text\":\"3\"\x7d,\x7b\"key\":\"B\",\"text\":\"4\"\x7d],\"answer\":\"B\"\x7d]"
        = "[\x7b\"stem\":\"2+2=?\",\"options\":[\x7b\"key\":\"A\",\"text\":\"3\"\x7d,\x7b\"key\":\"B\",\"text\":\"4\"\x7d],\"answer\":\"B\"\x7d]" := by
      decide
    have htake : ∀ x : JSVal, List.take (totalCount leadingDigit 1 m b) [x] = [x] := by
      intro x
      apply List.take_of_length_le
      have h1 : parseInt leadingDigit 1 = 1 := parseInt_of_lt leadingDigit (by decide)
      unfold totalCount
      rw [h1]
      simp only [List.length_singleton]
      omega
    simp only [generateQuestions, locateAndParse, hloc, hclean, parseAndLog, hparse,
      JSVal.get, Option.isSome_some, if_true, questionsOf, normalizeQuestions, htake]
    rfl

/-- C11, at concrete inputs: an entry with stem "Q1", answer "A" and one
option, and a `JSON.parse` that reads the scenario payload. -/
theorem formatQuestion_preserves_content_witness :
    (∃ r t, formatQuestion "学习材料" 1 0
        (.obj [("stem", .str "Q1"), ("options", .arr [optionEntry "A" "x"]),
          ("answer", .str "A")]) 0 = some r ∧
      r.get "stem" = some (.str "Q1") ∧
      r.get "answer" = some (.str "A") ∧
      r.get "type" = some t ∧
      ((t.eqStr "single" || t.eqStr "multi") = true →
        r.get "options" = some (.arr [optionEntry "A" "x"]))) ∧
    generateQuestions (fun _ => 1)
        (fun _ => some (.arr [.obj [("stem", .str "2+2=?"),
          ("options", .arr [optionEntry "A" "3", optionEntry "B" "4"]),
          ("answer", .str "B")]]))
        "学习材料" 1 0 0
        "\x60\x60\x60json\n[\x7b\"stem\":\"2+2=?\",\"options\":[\x7b\"key\":\"A\",\"text\":\"3\"\x7d,\x7b\"key\":\"B\",\"text\":\"4\"\x7d],\"answer\":\"B\"\x7d]\n\x60\x60\x60"
      = [.obj [("id", .num 1), ("type", .str "single"), ("stem", .str "2+2=?"),
          ("options", .arr [optionEntry "A" "3", optionEntry "B" "4"]),
          ("answer", .str "B"), ("knowledgePoints", .arr [.str "AI生成"]),
          ("difficulty", .str "medium"), ("rawTypeText", .str "单选题")]] :=
  formatQuestion_preserves_content (fun _ => 1)
    (fun _ => some (.arr [.obj [("stem", .str "2+2=?"),
      ("options", .arr [optionEntry "A" "3", optionEntry "B" "4"]),
      ("answer", .str "B")]]))
    "学习材料" 1 0 0
    (.obj [("stem", .str "Q1"), ("options", .arr [optionEntry "A" "x"]),
      ("answer", .str "A")]) 0 "Q1" "A" [optionEntry "A" "x"]
    rfl (by decide) rfl (by decide) rfl (by simp) rfl

/-- C12 (as stated, refuted): for a non-empty text in which no pattern is
accepted and no line qualifies, the result is the "generated successfully"
placeholder, another string than the "content being generated" placeholder of
an absent text; and a first line of eleven blanks, although longer than 10
characters, is passed over for the next line, lines being measured after
trimming. -/
theorem c12_two_placeholders_and_trimmed_lines :
    extractSection (literalRegExp Char.toUpper "核心知识点") (some "short text") "核心知识点"
      = some "AI解析生成成功，请查看详细内容。" ∧
    extractSection (literalRegExp Char.toUpper "核心知识点") none "核心知识点"
      = some "AI解析内容生成中..." ∧
    extractSection (literalRegExp Char.toUpper "核心知识点") (some "short text") "核心知识点"
      ≠ extractSection (literalRegExp Char.toUpper "核心知识点") none "核心知识点" ∧
    splitLines "           \nabcdefghijklmno".data
      = ["           ".data, "abcdefghijklmno".data] ∧
    10 < utf16Length "           ".data ∧
    extractSection (literalRegExp Char.toUpper "易错点")
        (some "           \nabcdefghijklmno") "易错点"
      = some "abcdefghijklmno" := by
  decide

/-- C12 (amended): for every text and every section name for which the three
patterns can be built, `extractSection` returns a string that is never empty.
For an absent or empty text it is the placeholder "AI解析内容生成中...".  For a
non-empty text it is the trimmed capture of the first pattern, in the order
bracketed label, inline label, heading marker, whose match has a trimmed
capture of length above 5; if there is none, the first line whose trimmed
length is above 10 (the line itself, untrimmed); and if there is none either,
the placeholder "AI解析生成成功，请查看详细内容。".  Lengths are those of the
property `length`, in UTF-16 code units. -/
theorem extractSection_result (regExp : String → Option Matcher) (text : Option String)
    (sectionName : String) (bracketed inline heading : Matcher)
    (hbracketed : regExp (bracketedSource sectionName) = some bracketed)
    (hinline : regExp (inlineSource sectionName) = some inline)
    (hheading : regExp (headingSource sectionName) = some heading) :
    ∃ r, extractSection regExp text sectionName = some r ∧
      r ≠ "" ∧
      (text = none ∨ text = some "" → r = "AI解析内容生成中...") ∧
      (∀ t, text = some t → t ≠ "" →
        (∀ c, acceptedCapture bracketed t.data = some c → r = c) ∧
        (∀ c, acceptedCapture bracketed t.data = none →
          acceptedCapture inline t.data = some c → r = c) ∧
        (∀ c, acceptedCapture bracketed t.data = none →
          acceptedCapture inline t.data = none →
          acceptedCapture heading t.data = some c → r = c) ∧
        (acceptedCapture bracketed t.data = none →
          acceptedCapture inline t.data = none →
          acceptedCapture heading t.data = none →
          (∀ line, (splitLines t.data).find?
              (fun line => decide (10 < utf16Length (trim line))) = some line →
            r = String.mk line) ∧
          ((splitLines t.data).find?
              (fun line => decide (10 < utf16Length (trim line))) = none →
            r = "AI解析生成成功，请查看详细内容。"))) ∧
      (∀ (pattern : Matcher) (t : List Char) (c : String),
        acceptedCapture pattern t = some c ↔
          ∃ m cap, pattern t = some m ∧ m.group1 = some cap ∧
            5 < utf16Length (trim cap) ∧ c = String.mk (trim cap)) := by
  cases text with
  | none =>
    refine ⟨placeholderGenerating, rfl, by decide, fun _ => rfl, ?_, acceptedCapture_iff⟩
    intro t ht
    simp at ht
  | some t =>
    by_cases ht : t = ""
    · subst ht
      refine ⟨placeholderGenerating, rfl, by decide, fun _ => rfl, ?_, acceptedCapture_iff⟩
      intro t ht hne
      simp only [Option.some.injEq] at ht
      exact absurd ht.symm hne
    · have hnot : ¬ (some t = none ∨ some t = some "") := by
        rintro (h | h)
        · simp at h
        · simp only [Option.some.injEq] at h
          exact ht h
      have hline : ∀ line : List Char,
          List.find? (fun line => decide (10 < utf16Length (trim line))) (splitLines t.data)
            = some line → line.isEmpty = false := by
        intro line hl
        have hp := List.find?_some hl
        cases line with
        | nil => simp [trim, utf16Length] at hp
        | cons _ _ => rfl
      cases hb : acceptedCapture bracketed t.data with
      | some c =>
        refine ⟨c, ?_, acceptedCapture_ne_empty hb, fun h => absurd h hnot, ?_,
          acceptedCapture_iff⟩
        · simp [extractSection, ht, hbracketed, hinline, hheading, firstAccepted, hb]
        · intro t2 ht2 _
          simp only [Option.some.injEq] at ht2
          subst ht2
          simp [hb]
      | none =>
        cases hi : acceptedCapture inline t.data with
        | some c =>
          refine ⟨c, ?_, acceptedCapture_ne_empty hi, fun h => absurd h hnot, ?_,
            acceptedCapture_iff⟩
          · simp [extractSection, ht, hbracketed, hinline, hheading, firstAccepted, hb, hi]
          · intro t2 ht2 _
            simp only [Option.some.injEq] at ht2
            subst ht2
            simp [hb, hi]
        | none =>
          cases hh : acceptedCapture heading t.data with
          | some c =>
            refine ⟨c, ?_, acceptedCapture_ne_empty hh, fun h => absurd h hnot, ?_,
              acceptedCapture_iff⟩
            · simp [extractSection, ht, hbracketed, hinline, hheading, firstAccepted,
                hb, hi, hh]
            · intro t2 ht2 _
              simp only [Option.some.injEq] at ht2
              subst ht2
              simp [hb, hi, hh]
          | none =>
            cases hl : (splitLines t.data).find?
                (fun line => decide (10 < utf16Length (trim line))) with
            | some line =>
              have hne := hline line hl
              refine ⟨String.mk line, ?_, ?_, fun h => absurd h hnot, ?_,
                acceptedCapture_iff⟩
              · simp [extractSection, ht, hbracketed, hinline, hheading, firstAccepted,
                  hb, hi, hh, hl, hne]
              · cases line with
                | nil => simp at hne
                | cons a l => exact mk_ne_empty_of_length_pos (by simp)
              · intro t2 ht2 _
                simp only [Option.some.injEq] at ht2
                subst ht2
                simp [hb, hi, hh, hl]
            | none =>
              refine ⟨placeholderGenerated, ?_, by decide, fun h => absurd h hnot, ?_,
                acceptedCapture_iff⟩
              · simp [extractSection, ht, hbracketed, hinline, hheading, firstAccepted,
                  hb, hi, hh, hl]
              · intro t2 ht2 _
                simp only [Option.some.injEq] at ht2
                subst ht2
                simp [hb, hi, hh, hl, placeholderGenerated]

/-- C12 (amended), at a concrete input: a bracketed label followed by a
capture of five characters that is six code units long. -/
theorem extractSection_result_witness :
    acceptedCapture (reBracketed Char.toUpper "易错点").search "【易错点】💡注意单位".data
      = some "💡注意单位" ∧
    extractSection (literalRegExp Char.toUpper "易错点") (some "【易错点】💡注意单位") "易错点"
      = some "💡注意单位" := by
  have hacc : acceptedCapture (reBracketed Char.toUpper "易错点").search
      "【易错点】💡注意单位".data = some "💡注意单位" := by decide
  obtain ⟨r, hr, _, _, hcascade, _⟩ :=
    extractSection_result (literalRegExp Char.toUpper "易错点")
      (some "【易错点】💡注意单位") "易错点"
      (reBracketed Char.toUpper "易错点").search
      (reInline Char.toUpper "易错点").search
      (reHeading Char.toUpper "易错点").search
      rfl rfl rfl
  have hrc := (hcascade "【易错点】💡注意单位" rfl (by decide)).1 _ hacc
  exact ⟨hacc, by rw [hr, hrc]⟩

end QuestionAI
